import Mathlib

/-!
Shallow embedding of the content-script-activation repository.

Source files embedded:
- src/src/messages.ts: message shapes, constructors and discriminator predicates.
- src/src/content-script.ts: the Target Agent listener (`setupActivation`).
- src/unnamed/part_000 (service-worker side): `activateContentScript`,
  `setupContentScriptActivation` and its inner per-trigger routine `activate`.

JavaScript messages on the channel are modelled as records of optional fields:
`key` is the value of the namespaced discriminant field
"[content-script-activation]" when that field is present (`none` = field
absent), `context` and `scriptId` the other two fields, absent = `none`
(JS `undefined`).  JS optional parameters are passed explicitly as `none`
where the source omits them.  The browser environment (message channel,
`scripting.executeScript` / `scripting.insertCSS`) is a parameter `Env`;
a run of the per-trigger routine yields the list of observable browser
calls (its trace) and an outcome (the promise resolves or rejects).
-/

namespace ContentScriptActivation

/-- A browser tab: `id` is optional in the WebExtension API (JS `tab.id`
may be `undefined`), `url` stands for the rest of the descriptor metadata. -/
structure Tab where
  id : Option Nat
  url : String
deriving DecidableEq, Repr

/-- Embeds `RequestActivationContext` from src/src/messages.ts. -/
structure RequestActivationContext where
  tab : Tab
  tabId : Nat
deriving DecidableEq, Repr

/-- A JS value sent over the channel, as a record of optional fields.  `key`
holds the value of the "[content-script-activation]" discriminant field when
present; `context` and `scriptId` the other fields of the two message shapes. -/
structure JSMsg where
  key : Option String
  context : Option RequestActivationContext
  scriptId : Option String
deriving DecidableEq, Repr

/-- Embeds the constant `TYPE_REQUEST_ACTIVATION` of src/src/messages.ts. -/
def TYPE_REQUEST_ACTIVATION : String := "request-activation"

/-- Embeds the constant `TYPE_ACTIVATION_SUCCESS` of src/src/messages.ts. -/
def TYPE_ACTIVATION_SUCCESS : String := "activation-success"

/-- Embeds `createRequestActivationMessage` of src/src/messages.ts. -/
def createRequestActivationMessage (context : RequestActivationContext)
    (scriptId : Option String) : JSMsg :=
  { key := some TYPE_REQUEST_ACTIVATION, context := some context,
    scriptId := scriptId }

/-- Embeds `isRequestActivationMessage` of src/src/messages.ts:
`KEY in message && message[KEY] === TYPE_REQUEST_ACTIVATION`. -/
def isRequestActivationMessage (message : JSMsg) : Bool :=
  message.key.isSome && message.key == some TYPE_REQUEST_ACTIVATION

/-- Embeds `createActivationSuccessMessage` of src/src/messages.ts. -/
def createActivationSuccessMessage (scriptId : Option String) : JSMsg :=
  { key := some TYPE_ACTIVATION_SUCCESS, context := none, scriptId := scriptId }

/-- Embeds `isActivationSuccessMessage` of src/src/messages.ts:
`KEY in message && message[KEY] === TYPE_ACTIVATION_SUCCESS`. -/
def isActivationSuccessMessage (message : JSMsg) : Bool :=
  message.key.isSome && message.key == some TYPE_ACTIVATION_SUCCESS

/-! ## Target Agent (src/src/content-script.ts) -/

/-- Observable behaviour of one delivery of a message to the listener that
`setupActivation` registers: the callback invocations (arguments as passed:
`message.context` and the agent's `scriptId`) and the `sendResponse` calls. -/
structure AgentResult where
  callbackCalls : List (Option RequestActivationContext × Option String)
  responses : List JSMsg
deriving DecidableEq, Repr

/-- Embeds the listener body of `setupActivation` (src/src/content-script.ts):
on a message, if `isRequestActivationMessage(message) && message.scriptId ===
scriptId`, invoke the callback (when provided) with `(message.context,
scriptId)` and reply with `createActivationSuccessMessage(scriptId)`;
otherwise do nothing.  `hasCallback` records whether `onActivation` was
provided. -/
def setupActivationListener (scriptId : Option String) (hasCallback : Bool)
    (message : JSMsg) : AgentResult :=
  if isRequestActivationMessage message && message.scriptId == scriptId then
    { callbackCalls := if hasCallback then [(message.context, scriptId)] else [],
      responses := [createActivationSuccessMessage scriptId] }
  else
    { callbackCalls := [], responses := [] }

/-! ## Controller (src/unnamed/part_000, service-worker side) -/

/-- Result of one `browser.tabs.sendMessage` round trip as seen by the
caller: a delivered response value, or a rejection (no listener, timeout,
transport error — anything the `catch` block would receive). -/
inductive SendResult
  | response (msg : JSMsg)
  | failure
deriving DecidableEq, Repr

/-- Embeds `ScriptInjection` (options of `browser.scripting.executeScript`
without `target`); only `files` is relevant to the protocol, the other
options are passed through untouched. -/
structure ScriptInjection where
  files : Option (List String)
deriving DecidableEq, Repr

/-- Embeds `CSSInjection` (options of `browser.scripting.insertCSS` without
`target`). -/
structure CSSInjection where
  files : Option (List String)
deriving DecidableEq, Repr

/-- One element of the `scripts` option array: a raw file name (JS string)
or a structured options object. -/
inductive ScriptSource
  | file (name : String)
  | options (o : ScriptInjection)
deriving DecidableEq, Repr

/-- One element of the `styles` option array. -/
inductive StyleSource
  | file (name : String)
  | options (o : CSSInjection)
deriving DecidableEq, Repr

/-- The `scripts` option: `string | string[] | ScriptInjection |
ScriptInjection[]` (a JS array may mix strings and objects; the source
inspects each element with `typeof`). -/
inductive Scripts
  | str (s : String)
  | arr (l : List ScriptSource)
  | obj (o : ScriptInjection)
deriving DecidableEq, Repr

/-- The `styles` option: `string | string[] | CSSInjection | CSSInjection[]`. -/
inductive Styles
  | str (s : String)
  | arr (l : List StyleSource)
  | obj (o : CSSInjection)
deriving DecidableEq, Repr

/-- Embeds `InjectOptions`.  The hooks are user functions whose only
observable effect in the model is that they run, so they are recorded by
presence. -/
structure InjectOptions where
  beforeInjection : Bool
  afterInjection : Bool
  scripts : Scripts
  styles : Option Styles

/-- The `inject` option: `string | string[] | InjectOptions`. -/
inductive Inject
  | str (s : String)
  | strList (l : List String)
  | opts (o : InjectOptions)

/-- Embeds `ContentScriptActivationOptions`.  `filterTab` returns `unknown`
in the source and is checked for truthiness; it is modelled as the
truthiness of its result. -/
structure ContentScriptActivationOptions where
  filterTab : Option (Tab → Bool)
  inject : Inject
  scriptId : Option String
  injectOnClick : Option Bool

/-- The argument of `setupContentScriptActivation`:
`string | string[] | ContentScriptActivationOptions`. -/
inductive SetupOptions
  | str (s : String)
  | strList (l : List String)
  | full (o : ContentScriptActivationOptions)

/-- Embeds the options shorthand of `setupContentScriptActivation`:
a bare string or array becomes `{ inject: { scripts: options } }`. -/
def resolveOptions : SetupOptions → ContentScriptActivationOptions
  | .str s =>
      { filterTab := none,
        inject := .opts { beforeInjection := false, afterInjection := false,
                          scripts := .str s, styles := none },
        scriptId := none, injectOnClick := none }
  | .strList l =>
      { filterTab := none,
        inject := .opts { beforeInjection := false, afterInjection := false,
                          scripts := .arr (l.map .file), styles := none },
        scriptId := none, injectOnClick := none }
  | .full o => o

/-- Embeds the injection shorthand inside `activate`: a bare string or array
for `inject` becomes `{ scripts: inject }`. -/
def resolveInject : Inject → InjectOptions
  | .str s => { beforeInjection := false, afterInjection := false,
                scripts := .str s, styles := none }
  | .strList l => { beforeInjection := false, afterInjection := false,
                    scripts := .arr (l.map .file), styles := none }
  | .opts o => o

/-- The browser environment a trigger event runs against: the channel's
answer to the first and the second `sendMessage` call, and whether a given
injection dispatch rejects. -/
structure Env where
  send1 : JSMsg → SendResult
  send2 : JSMsg → SendResult
  scriptDispatchFails : ScriptInjection → Bool
  cssDispatchFails : CSSInjection → Bool

/-- An observable browser call made during one trigger event. -/
inductive Event
  | sentMessage (tabId : Nat) (msg : JSMsg)
  | beforeInjectionRun (tabId : Nat)
  | executeScript (tabId : Nat) (injection : ScriptInjection)
  | insertCSS (tabId : Nat) (injection : CSSInjection)
  | afterInjectionRun (tabId : Nat)
deriving DecidableEq, Repr

/-- Whether the async routine's promise resolved or rejected. -/
inductive Outcome
  | returned
  | rejected
deriving DecidableEq, Repr

/-- Embeds `activateContentScript` (src/unnamed/part_000 lines 9-25).  The
source calls `createRequestActivationMessage(context)` without its optional
second argument, so the wire message always carries `scriptId` undefined.
Any rejection of `sendMessage` is caught and leaves `isInjected` false;
otherwise `isInjected` is set only when the response passes
`isActivationSuccessMessage` and `response.scriptId === scriptId`. -/
def activateContentScript (send : JSMsg → SendResult)
    (context : RequestActivationContext) (scriptId : Option String) :
    List Event × Bool :=
  let message := createRequestActivationMessage context none
  let events := [Event.sentMessage context.tabId message]
  match send message with
  | .failure => (events, false)
  | .response response =>
      (events,
        if isActivationSuccessMessage response then response.scriptId == scriptId
        else false)

/-- JS truthiness of the `scripts` option (`if (scripts)`): only the empty
string is falsy among its possible values. -/
def scriptsTruthy : Scripts → Bool
  | .str s => !(s == "")
  | _ => true

/-- JS truthiness of a `styles` value. -/
def stylesTruthy : Styles → Bool
  | .str s => !(s == "")
  | _ => true

/-- Embeds the scripts normalization inside `activate`: wrap a single
string/object into an array, partition elements into `stringScripts` and
structured objects (order preserved within each), and append one
`{ files: stringScripts }` dispatch when any strings were collected. -/
def normalizeScripts (scripts : Scripts) : List ScriptInjection :=
  let allScriptInjections : List ScriptSource :=
    match scripts with
    | .str s => [.file s]
    | .obj o => [.options o]
    | .arr l => l
  let stringScripts := allScriptInjections.filterMap fun s =>
    match s with | .file n => some n | .options _ => none
  let allScripts := allScriptInjections.filterMap fun s =>
    match s with | .file _ => none | .options o => some o
  if stringScripts.length > 0 then allScripts ++ [{ files := some stringScripts }]
  else allScripts

/-- Embeds the styles normalization inside `activate` (same partitioning as
for scripts). -/
def normalizeStyles (styles : Styles) : List CSSInjection :=
  let allStyleInjections : List StyleSource :=
    match styles with
    | .str s => [.file s]
    | .obj o => [.options o]
    | .arr l => l
  let stringStyles := allStyleInjections.filterMap fun s =>
    match s with | .file n => some n | .options _ => none
  let allStyles := allStyleInjections.filterMap fun s =>
    match s with | .file _ => none | .options o => some o
  if stringStyles.length > 0 then allStyles ++ [{ files := some stringStyles }]
  else allStyles

/-- Script dispatches one trigger makes: guarded by `if (scripts)`. -/
def scriptDispatchList (inj : InjectOptions) : List ScriptInjection :=
  if scriptsTruthy inj.scripts then normalizeScripts inj.scripts else []

/-- Style dispatches one trigger makes: guarded by `if (styles)` (absent or
falsy styles dispatch nothing). -/
def styleDispatchList (inj : InjectOptions) : List CSSInjection :=
  match inj.styles with
  | none => []
  | some st => if stylesTruthy st then normalizeStyles st else []

/-- Truthiness check `if (filterTab && !filterTab(tab)) return`. -/
def filterPasses (filterTab : Option (Tab → Bool)) (tab : Tab) : Bool :=
  match filterTab with
  | some f => f tab
  | none => true

/-- Embeds the per-trigger routine `activate` (src/unnamed/part_000 lines
131-197).  JS `!tab.id` is true both for a missing id and for id 0.  The
dispatches of `injectionPromises` all happen before `Promise.all` is
awaited, so they all appear in the trace even when one of them rejects; a
rejection propagates (outcome `rejected`), skipping `afterInjection` and the
second probe. -/
def activate (env : Env) (options : ContentScriptActivationOptions)
    (tab : Tab) : List Event × Outcome :=
  match tab.id with
  | none => ([], .returned)
  | some tabId =>
    if tabId == 0 then ([], .returned)
    else if !(filterPasses options.filterTab tab) then ([], .returned)
    else
      let activationContext : RequestActivationContext := { tab := tab, tabId := tabId }
      let probe := activateContentScript env.send1 activationContext options.scriptId
      if probe.2 then (probe.1, .returned)
      else
        let resolvedInject := resolveInject options.inject
        let beforeEvents :=
          if resolvedInject.beforeInjection then [Event.beforeInjectionRun tabId] else []
        let scriptInjections := scriptDispatchList resolvedInject
        let styleInjections := styleDispatchList resolvedInject
        let dispatchEvents :=
          scriptInjections.map (Event.executeScript tabId)
            ++ styleInjections.map (Event.insertCSS tabId)
        if scriptInjections.any env.scriptDispatchFails
            || styleInjections.any env.cssDispatchFails then
          (probe.1 ++ beforeEvents ++ dispatchEvents, .rejected)
        else
          let afterEvents :=
            if resolvedInject.afterInjection then [Event.afterInjectionRun tabId] else []
          let reProbe := activateContentScript env.send2 activationContext options.scriptId
          (probe.1 ++ beforeEvents ++ dispatchEvents ++ afterEvents ++ reProbe.1,
            .returned)

/-- What `setupContentScriptActivation` does after resolving options:
register the click handler, or return the activate function. -/
inductive SetupResult
  | registeredClickHandler
  | returnedActivate
deriving DecidableEq, Repr

/-- JS truthiness of the `injectOnClick` option (`boolean | undefined`). -/
def injectOnClickTruthy : Option Bool → Bool
  | some true => true
  | _ => false

/-- Embeds the tail of `setupContentScriptActivation` (src/unnamed/part_000
lines 199-200): `if (injectOnClick) browser.action.onClicked.addListener(activate);
else return activate;`. -/
def setupContentScriptActivation (options : SetupOptions) : SetupResult :=
  let resolvedOptions := resolveOptions options
  if injectOnClickTruthy resolvedOptions.injectOnClick then .registeredClickHandler
  else .returnedActivate

/-- Wires a live agent into the channel: the controller's message is
delivered to the listener; if the listener sends a response it is returned,
otherwise the round trip fails (no responder). -/
def agentChannel (agentScriptId : Option String) (hasCallback : Bool)
    (message : JSMsg) : SendResult :=
  match (setupActivationListener agentScriptId hasCallback message).responses with
  | r :: _ => .response r
  | [] => .failure

/-- The channel messages in a trace, in order. -/
def sentMessages (events : List Event) : List JSMsg :=
  events.filterMap fun e =>
    match e with
    | .sentMessage _ m => some m
    | _ => none

/-- The injection dispatches (script or style) in a trace, in order. -/
def injectionDispatches (events : List Event) : List Event :=
  events.filter fun e =>
    match e with
    | .executeScript _ _ => true
    | .insertCSS _ _ => true
    | _ => false

/-! ## Concrete fixtures -/

/-- A tab with a valid id, used by the scenario theorems. -/
def tab1 : Tab := { id := some 1, url := "https://example.com" }

/-- The activation context `activate` builds for `tab1`. -/
def ctx1 : RequestActivationContext := { tab := tab1, tabId := 1 }

/-- A tab whose id is absent. -/
def tabNoId : Tab := { id := none, url := "https://example.com" }

/-- Controller options for the C1 scenario: scriptId "x", script "a.js". -/
def c1Options : ContentScriptActivationOptions :=
  { filterTab := none, inject := .str "a.js", scriptId := some "x",
    injectOnClick := some true }

/-- Environment for the C1 scenario: a live agent registered with scriptId
"x" and a callback answers both sends; dispatches never fail. -/
def c1Env : Env :=
  { send1 := agentChannel (some "x") true, send2 := agentChannel (some "x") true,
    scriptDispatchFails := fun _ => false, cssDispatchFails := fun _ => false }

/-- Inject options for the C5 scenario: scripts=["a.js"], styles=["b.css"],
both hooks configured. -/
def c5Options : ContentScriptActivationOptions :=
  { filterTab := none,
    inject := .opts { beforeInjection := true, afterInjection := true,
                      scripts := .arr [.file "a.js"],
                      styles := some (.arr [.file "b.css"]) },
    scriptId := none, injectOnClick := some true }

/-- Environment for the C5 scenario: no agent answers the first probe; the
second probe gets a response (which the controller discards); dispatches
succeed. -/
def c5Env : Env :=
  { send1 := fun _ => .failure,
    send2 := fun _ => .response (createActivationSuccessMessage none),
    scriptDispatchFails := fun _ => false, cssDispatchFails := fun _ => false }

/-- Environment with no agent listening and reliable injection. -/
def failEnv : Env :=
  { send1 := fun _ => .failure, send2 := fun _ => .failure,
    scriptDispatchFails := fun _ => false, cssDispatchFails := fun _ => false }

/-- Environment with no agent listening where every script dispatch rejects. -/
def failingDispatchEnv : Env :=
  { send1 := fun _ => .failure, send2 := fun _ => .failure,
    scriptDispatchFails := fun _ => true, cssDispatchFails := fun _ => false }

/-- Environment with a live untagged agent (default instance) with callback. -/
def liveDefaultEnv : Env :=
  { send1 := agentChannel none true, send2 := agentChannel none true,
    scriptDispatchFails := fun _ => false, cssDispatchFails := fun _ => false }

/-- Untagged controller options injecting a single script. -/
def defaultOptions : ContentScriptActivationOptions :=
  { filterTab := none, inject := .str "a.js", scriptId := none,
    injectOnClick := some true }

/-- Full options with no filter, script "a.js", no scriptId, and the given
`injectOnClick` value. -/
def plainOptions (injectOnClick : Option Bool) : ContentScriptActivationOptions :=
  { filterTab := none, inject := .str "a.js", scriptId := none,
    injectOnClick := injectOnClick }

/-! ## Helper lemmas -/

/-- Both branches of `activateContentScript` produce the same single-send
trace: the request message built from the context with `scriptId` omitted. -/
theorem activateContentScript_fst (send : JSMsg → SendResult)
    (context : RequestActivationContext) (scriptId : Option String) :
    (activateContentScript send context scriptId).1
      = [Event.sentMessage context.tabId (createRequestActivationMessage context none)] := by
  cases h : send (createRequestActivationMessage context none) <;>
    simp [activateContentScript, h]

/-- `sentMessages` distributes over trace concatenation. -/
theorem sentMessages_append (a b : List Event) :
    sentMessages (a ++ b) = sentMessages a ++ sentMessages b := by
  simp [sentMessages]

/-- Script dispatch events carry no channel message. -/
theorem sentMessages_execMap (tabId : Nat) (l : List ScriptInjection) :
    sentMessages (l.map (Event.executeScript tabId)) = [] := by
  induction l with
  | nil => rfl
  | cons a t ih => simp [sentMessages]

/-- Style dispatch events carry no channel message. -/
theorem sentMessages_cssMap (tabId : Nat) (l : List CSSInjection) :
    sentMessages (l.map (Event.insertCSS tabId)) = [] := by
  induction l with
  | nil => rfl
  | cons a t ih => simp [sentMessages]

/-- Hook events carry no channel message. -/
theorem sentMessages_beforeIte (b : Bool) (tabId : Nat) :
    sentMessages (if b then [Event.beforeInjectionRun tabId] else []) = [] := by
  cases b <;> rfl

/-- Hook events carry no channel message. -/
theorem sentMessages_afterIte (b : Bool) (tabId : Nat) :
    sentMessages (if b then [Event.afterInjectionRun tabId] else []) = [] := by
  cases b <;> rfl

/-- `injectionDispatches` distributes over trace concatenation. -/
theorem injectionDispatches_append (a b : List Event) :
    injectionDispatches (a ++ b) = injectionDispatches a ++ injectionDispatches b := by
  simp [injectionDispatches]

/-- A probe's trace contains no injection dispatch. -/
theorem injectionDispatches_probe (send : JSMsg → SendResult)
    (context : RequestActivationContext) (scriptId : Option String) :
    injectionDispatches (activateContentScript send context scriptId).1 = [] := by
  rw [activateContentScript_fst]; rfl

/-- Hook events are not injection dispatches. -/
theorem injectionDispatches_beforeIte (b : Bool) (tabId : Nat) :
    injectionDispatches (if b then [Event.beforeInjectionRun tabId] else []) = [] := by
  cases b <;> rfl

/-- Hook events are not injection dispatches. -/
theorem injectionDispatches_afterIte (b : Bool) (tabId : Nat) :
    injectionDispatches (if b then [Event.afterInjectionRun tabId] else []) = [] := by
  cases b <;> rfl

/-- Every script dispatch event is an injection dispatch. -/
theorem injectionDispatches_execMap (tabId : Nat) (l : List ScriptInjection) :
    injectionDispatches (l.map (Event.executeScript tabId))
      = l.map (Event.executeScript tabId) := by
  induction l with
  | nil => rfl
  | cons a t ih => simp [injectionDispatches]

/-- Every style dispatch event is an injection dispatch. -/
theorem injectionDispatches_cssMap (tabId : Nat) (l : List CSSInjection) :
    injectionDispatches (l.map (Event.insertCSS tabId))
      = l.map (Event.insertCSS tabId) := by
  induction l with
  | nil => rfl
  | cons a t ih => simp [injectionDispatches]

/-! ## Claim theorems -/

/-- C1: the spec scenario expects that with instanceTag "x" configured on
both the Controller and a live Agent, the first probe succeeds, no injection
dispatch occurs and the agent callback fires once.  The code instead builds
the probe with `createRequestActivationMessage(context)`, dropping the
configured scriptId, so the tagged agent ignores both probes (no response,
no callback) and the controller dispatches an injection.  This theorem
evaluates the code at that failing input. -/
theorem c1_tagged_probe_ignored_and_injected :
    injectionDispatches (activate c1Env c1Options tab1).1
        = [Event.executeScript 1 { files := some ["a.js"] }]
    ∧ sentMessages (activate c1Env c1Options tab1).1
        = [createRequestActivationMessage ctx1 none,
           createRequestActivationMessage ctx1 none]
    ∧ (setupActivationListener (some "x") true
        (createRequestActivationMessage ctx1 none)).callbackCalls = []
    ∧ (setupActivationListener (some "x") true
        (createRequestActivationMessage ctx1 none)).responses = [] :=
  ⟨rfl, rfl, rfl, rfl⟩

/-- C2: the claim (and the source's own JSDoc `@default true`) says an
omitted `injectOnClick` behaves like `true` (auto-register, return nothing).
The code's `if (injectOnClick)` treats the omitted (undefined) option as
falsy, so setup returns the activate function instead of registering the
click handler — both for the bare-string shorthand and for full options
without `injectOnClick`.  Only an explicit `true` registers the handler. -/
theorem c2_omitted_injectOnClick_returns_function :
    setupContentScriptActivation (SetupOptions.str "a.js") = .returnedActivate
    ∧ setupContentScriptActivation (.full (plainOptions none)) = .returnedActivate
    ∧ setupContentScriptActivation (.full (plainOptions (some false)))
        = .returnedActivate
    ∧ setupContentScriptActivation (.full (plainOptions (some true)))
        = .registeredClickHandler :=
  ⟨rfl, rfl, rfl, rfl⟩

/-- C5: on a cold target with scripts=["a.js"], styles=["b.css"] and both
hooks configured, the trigger runs exactly: failed probe, beforeInjection,
one script dispatch with files=["a.js"], one style dispatch with
files=["b.css"], afterInjection, and a second request message whose response
is discarded (the routine still resolves). -/
theorem c5_cold_target_sequence :
    activate c5Env c5Options tab1 =
      ([Event.sentMessage 1 (createRequestActivationMessage ctx1 none),
        Event.beforeInjectionRun 1,
        Event.executeScript 1 { files := some ["a.js"] },
        Event.insertCSS 1 { files := some ["b.css"] },
        Event.afterInjectionRun 1,
        Event.sentMessage 1 (createRequestActivationMessage ctx1 none)],
       .returned) :=
  rfl

/-- C10: for every context and optional tag, the constructors and
discriminator predicates round-trip and are mutually exclusive. -/
theorem c10_message_predicates_roundtrip (c : RequestActivationContext)
    (s t : Option String) :
    isRequestActivationMessage (createRequestActivationMessage c s) = true
    ∧ isActivationSuccessMessage (createRequestActivationMessage c s) = false
    ∧ isActivationSuccessMessage (createActivationSuccessMessage t) = true
    ∧ isRequestActivationMessage (createActivationSuccessMessage t) = false :=
  ⟨rfl, rfl, rfl, rfl⟩

/-- C4: for every message the agent's listener receives, if it is not a
well-formed ActivationRequestMessage (fails the discriminator) or its
instanceTag does not strictly equal the agent's (including one present /
one absent), the agent sends no response and invokes no callback; otherwise
it invokes the callback (when present) exactly once with the message's
context and the instanceTag, and replies exactly once with an
ActivationSuccessMessage carrying the same instanceTag. -/
theorem c4_agent_strict_tag_match (tag : Option String) (hasCb : Bool)
    (m : JSMsg) :
    (¬ (isRequestActivationMessage m = true ∧ m.scriptId = tag) →
      setupActivationListener tag hasCb m
        = { callbackCalls := [], responses := [] })
    ∧ (isRequestActivationMessage m = true → m.scriptId = tag →
      (setupActivationListener tag hasCb m).responses
          = [createActivationSuccessMessage tag]
      ∧ (hasCb = true →
          (setupActivationListener tag hasCb m).callbackCalls = [(m.context, tag)])
      ∧ (hasCb = false →
          (setupActivationListener tag hasCb m).callbackCalls = [])) := by
  constructor
  · intro h
    unfold setupActivationListener
    rw [if_neg]
    intro hc
    rw [Bool.and_eq_true] at hc
    exact h ⟨hc.1, by simpa using hc.2⟩
  · intro h1 h2
    unfold setupActivationListener
    rw [if_pos (by simp [h1, h2])]
    refine ⟨rfl, ?_, ?_⟩ <;> intro hc <;> simp [hc, h2]

/-- Witness for C4 at a concrete matching input: agent tagged "x" with a
callback, receiving a request tagged "x", replies with a success tagged
"x". -/
theorem c4_agent_strict_tag_match_witness :
    (setupActivationListener (some "x") true
        (createRequestActivationMessage ctx1 (some "x"))).responses
      = [createActivationSuccessMessage (some "x")] :=
  ((c4_agent_strict_tag_match (some "x") true
      (createRequestActivationMessage ctx1 (some "x"))).2 (by decide) (by decide)).1

/-- C7: a trigger whose tab has no resolvable id (absent, or 0 which JS
truthiness treats as missing) is a silent no-op: no channel message, no
injection, no hook, no rejection. -/
theorem c7_missing_target_silent_noop (env : Env)
    (options : ContentScriptActivationOptions) (tab : Tab)
    (h : tab.id = none ∨ tab.id = some 0) :
    activate env options tab = ([], .returned) := by
  rcases h with h | h <;> simp [activate, h]

/-- Witness for C7: a tab with an absent id produces the empty trace. -/
theorem c7_missing_target_silent_noop_witness :
    activate failEnv defaultOptions tabNoId = ([], .returned) :=
  c7_missing_target_silent_noop failEnv defaultOptions tabNoId (Or.inl rfl)

/-! ## Branch equations for `activate` -/

/-- A trigger on a tab without id resolves immediately with an empty trace. -/
theorem activate_eq_of_id_none (env : Env)
    (options : ContentScriptActivationOptions) (tab : Tab)
    (h : tab.id = none) : activate env options tab = ([], .returned) := by
  unfold activate
  split
  · rfl
  · rename_i tabId' heq
    rw [heq] at h
    cases h

/-- A trigger on a tab with id 0 (falsy in JS) resolves immediately with an
empty trace. -/
theorem activate_eq_of_id_zero (env : Env)
    (options : ContentScriptActivationOptions) (tab : Tab)
    (h : tab.id = some 0) : activate env options tab = ([], .returned) := by
  unfold activate
  split
  · rfl
  · rename_i tabId' heq
    rw [heq] at h
    injection h with h'
    rw [if_pos (by rw [h']; decide)]

/-- A trigger filtered out by `filterTab` resolves with an empty trace. -/
theorem activate_eq_of_filtered (env : Env)
    (options : ContentScriptActivationOptions) (tab : Tab) (tabId : Nat)
    (hid : tab.id = some tabId) (hnz : (tabId == 0) = false)
    (hfil : filterPasses options.filterTab tab = false) :
    activate env options tab = ([], .returned) := by
  unfold activate
  split
  · rfl
  · rename_i tabId' heq
    rw [heq] at hid
    injection hid with hid'
    subst hid'
    rw [if_neg (by rw [hnz]; exact Bool.false_ne_true)]
    rw [if_pos (by rw [hfil]; rfl)]

/-- When the first probe succeeds, the trigger ends right after it. -/
theorem activate_eq_probe_success (env : Env)
    (options : ContentScriptActivationOptions) (tab : Tab) (tabId : Nat)
    (hid : tab.id = some tabId) (hnz : (tabId == 0) = false)
    (hfil : filterPasses options.filterTab tab = true)
    (hprobe : (activateContentScript env.send1
      { tab := tab, tabId := tabId } options.scriptId).2 = true) :
    activate env options tab
      = ((activateContentScript env.send1
          { tab := tab, tabId := tabId } options.scriptId).1, .returned) := by
  unfold activate
  split
  · rename_i h
    rw [h] at hid
    cases hid
  · rename_i tabId' h
    rw [h] at hid
    injection hid with hid'
    subst hid'
    rw [if_neg (by rw [hnz]; exact Bool.false_ne_true)]
    rw [if_neg (by rw [hfil]; simp)]
    rw [if_pos hprobe]

/-- When the probe fails and some injection dispatch rejects, the trigger
rejects right after dispatching, without the post-injection hook or the
re-probe. -/
theorem activate_eq_inject_rejected (env : Env)
    (options : ContentScriptActivationOptions) (tab : Tab) (tabId : Nat)
    (hid : tab.id = some tabId) (hnz : (tabId == 0) = false)
    (hfil : filterPasses options.filterTab tab = true)
    (hprobe : (activateContentScript env.send1
      { tab := tab, tabId := tabId } options.scriptId).2 = false)
    (hfail : ((scriptDispatchList (resolveInject options.inject)).any
        env.scriptDispatchFails
      || (styleDispatchList (resolveInject options.inject)).any
        env.cssDispatchFails) = true) :
    activate env options tab
      = ((activateContentScript env.send1
            { tab := tab, tabId := tabId } options.scriptId).1
          ++ (if (resolveInject options.inject).beforeInjection
              then [Event.beforeInjectionRun tabId] else [])
          ++ ((scriptDispatchList (resolveInject options.inject)).map
                (Event.executeScript tabId)
              ++ (styleDispatchList (resolveInject options.inject)).map
                (Event.insertCSS tabId)), .rejected) := by
  unfold activate
  split
  · rename_i h
    rw [h] at hid
    cases hid
  · rename_i tabId' h
    rw [h] at hid
    injection hid with hid'
    subst hid'
    rw [if_neg (by rw [hnz]; exact Bool.false_ne_true)]
    rw [if_neg (by rw [hfil]; simp)]
    rw [if_neg (by rw [hprobe]; exact Bool.false_ne_true)]
    rw [if_pos hfail]

/-- When the probe fails and every injection dispatch resolves, the trigger
runs the full inject / re-probe sequence and resolves. -/
theorem activate_eq_inject_ok (env : Env)
    (options : ContentScriptActivationOptions) (tab : Tab) (tabId : Nat)
    (hid : tab.id = some tabId) (hnz : (tabId == 0) = false)
    (hfil : filterPasses options.filterTab tab = true)
    (hprobe : (activateContentScript env.send1
      { tab := tab, tabId := tabId } options.scriptId).2 = false)
    (hfail : ((scriptDispatchList (resolveInject options.inject)).any
        env.scriptDispatchFails
      || (styleDispatchList (resolveInject options.inject)).any
        env.cssDispatchFails) = false) :
    activate env options tab
      = ((activateContentScript env.send1
            { tab := tab, tabId := tabId } options.scriptId).1
          ++ (if (resolveInject options.inject).beforeInjection
              then [Event.beforeInjectionRun tabId] else [])
          ++ ((scriptDispatchList (resolveInject options.inject)).map
                (Event.executeScript tabId)
              ++ (styleDispatchList (resolveInject options.inject)).map
                (Event.insertCSS tabId))
          ++ (if (resolveInject options.inject).afterInjection
              then [Event.afterInjectionRun tabId] else [])
          ++ (activateContentScript env.send2
            { tab := tab, tabId := tabId } options.scriptId).1, .returned) := by
  unfold activate
  split
  · rename_i h
    rw [h] at hid
    cases hid
  · rename_i tabId' h
    rw [h] at hid
    injection hid with hid'
    subst hid'
    rw [if_neg (by rw [hnz]; exact Bool.false_ne_true)]
    rw [if_neg (by rw [hfil]; simp)]
    rw [if_neg (by rw [hprobe]; exact Bool.false_ne_true)]
    rw [if_neg (by rw [hfail]; exact Bool.false_ne_true)]

/-- C3: every ActivationRequestMessage the controller sends during a
trigger — the first probe and the post-injection re-probe alike, whatever
scriptId was configured — carries `scriptId` undefined, because
`activateContentScript` calls the constructor without its optional second
argument. -/
theorem c3_sent_messages_carry_no_scriptId (env : Env)
    (options : ContentScriptActivationOptions) (tab : Tab) :
    ∀ m ∈ sentMessages (activate env options tab).1, m.scriptId = none := by
  intro m hm
  rcases htab : tab.id with _ | tabId
  · rw [activate_eq_of_id_none env options tab htab] at hm
    simp [sentMessages] at hm
  · rcases h0 : (tabId == 0) with _ | _
    case true =>
      have hz : tabId = 0 := by simpa using h0
      rw [activate_eq_of_id_zero env options tab (hz ▸ htab)] at hm
      simp [sentMessages] at hm
    case false =>
      rcases hfil : filterPasses options.filterTab tab with _ | _
      · rw [activate_eq_of_filtered env options tab tabId htab h0 hfil] at hm
        simp [sentMessages] at hm
      · rcases hp : (activateContentScript env.send1
            { tab := tab, tabId := tabId } options.scriptId).2 with _ | _
        case true =>
          rw [activate_eq_probe_success env options tab tabId htab h0 hfil hp,
            activateContentScript_fst] at hm
          simp only [sentMessages, List.filterMap_cons, List.filterMap_nil,
            List.mem_singleton] at hm
          simp [hm, createRequestActivationMessage]
        case false =>
          rcases hfail : ((scriptDispatchList (resolveInject options.inject)).any
              env.scriptDispatchFails
            || (styleDispatchList (resolveInject options.inject)).any
              env.cssDispatchFails) with _ | _
          case true =>
            rw [activate_eq_inject_rejected env options tab tabId htab h0 hfil
              hp hfail] at hm
            rw [sentMessages_append, sentMessages_append, sentMessages_append,
              activateContentScript_fst, sentMessages_beforeIte,
              sentMessages_execMap, sentMessages_cssMap] at hm
            simp only [sentMessages, List.filterMap_cons, List.filterMap_nil,
              List.append_nil, List.mem_singleton] at hm
            simp [hm, createRequestActivationMessage]
          case false =>
            rw [activate_eq_inject_ok env options tab tabId htab h0 hfil
              hp hfail] at hm
            rw [sentMessages_append, sentMessages_append, sentMessages_append,
              sentMessages_append, sentMessages_append,
              activateContentScript_fst, activateContentScript_fst,
              sentMessages_beforeIte, sentMessages_afterIte,
              sentMessages_execMap, sentMessages_cssMap] at hm
            simp only [sentMessages, List.filterMap_cons, List.filterMap_nil,
              List.append_nil, List.nil_append, List.mem_append,
              List.mem_singleton] at hm
            rcases hm with hm | hm <;> simp [hm, createRequestActivationMessage]

/-- Witness for C3: the message a cold-target trigger with the default
options sends has no scriptId. -/
theorem c3_sent_messages_carry_no_scriptId_witness :
    (createRequestActivationMessage ctx1 none).scriptId = none :=
  c3_sent_messages_carry_no_scriptId failEnv defaultOptions tab1
    (createRequestActivationMessage ctx1 none) (by decide)

/-- C6: whenever the first probe of a trigger event succeeds, the trigger
performs no injection dispatch, sends no further channel message (at most
the single probe), and the routine resolves. -/
theorem c6_probe_success_terminal (env : Env)
    (options : ContentScriptActivationOptions) (tab : Tab) (tabId : Nat)
    (hid : tab.id = some tabId) (hnz : tabId ≠ 0)
    (hprobe : (activateContentScript env.send1
      { tab := tab, tabId := tabId } options.scriptId).2 = true) :
    injectionDispatches (activate env options tab).1 = []
    ∧ (sentMessages (activate env options tab).1).length ≤ 1
    ∧ (activate env options tab).2 = .returned := by
  have h0 : (tabId == 0) = false := by simpa using hnz
  rcases hfil : filterPasses options.filterTab tab with _ | _
  · rw [activate_eq_of_filtered env options tab tabId hid h0 hfil]
    exact ⟨rfl, by simp [sentMessages], rfl⟩
  · rw [activate_eq_probe_success env options tab tabId hid h0 hfil hprobe]
    refine ⟨injectionDispatches_probe _ _ _, ?_, rfl⟩
    rw [activateContentScript_fst]
    simp [sentMessages]

/-- Witness for C6: a live untagged agent answers the probe of an untagged
controller; the trigger injects nothing and sends only that probe. -/
theorem c6_probe_success_terminal_witness :
    injectionDispatches (activate liveDefaultEnv defaultOptions tab1).1 = []
    ∧ (sentMessages (activate liveDefaultEnv defaultOptions tab1).1).length ≤ 1
    ∧ (activate liveDefaultEnv defaultOptions tab1).2 = .returned :=
  c6_probe_success_terminal liveDefaultEnv defaultOptions tab1 1 rfl
    (by decide) (by decide)

/-- C8: probe round-trip failures are swallowed.  Whatever the channel does,
a trigger whose injection dispatches do not reject always resolves; a
rejected send leaves `activateContentScript` reporting "not yet injected"
(false), as does a delivered response that fails the success discriminator. -/
theorem c8_channel_failures_swallowed (env : Env)
    (options : ContentScriptActivationOptions) (tab : Tab)
    (hs : ∀ s, env.scriptDispatchFails s = false)
    (hc : ∀ c, env.cssDispatchFails c = false) :
    (activate env options tab).2 = .returned
    ∧ (∀ context scriptId,
        env.send1 (createRequestActivationMessage context none) = .failure →
        (activateContentScript env.send1 context scriptId).2 = false)
    ∧ (∀ context scriptId r,
        env.send1 (createRequestActivationMessage context none) = .response r →
        isActivationSuccessMessage r = false →
        (activateContentScript env.send1 context scriptId).2 = false) := by
  have hs' : ∀ l : List ScriptInjection, l.any env.scriptDispatchFails = false := by
    intro l
    induction l with
    | nil => rfl
    | cons a t ih => simp [List.any_cons, hs a, ih]
  have hc' : ∀ l : List CSSInjection, l.any env.cssDispatchFails = false := by
    intro l
    induction l with
    | nil => rfl
    | cons a t ih => simp [List.any_cons, hc a, ih]
  refine ⟨?_, ?_, ?_⟩
  · rcases htab : tab.id with _ | tabId
    · rw [activate_eq_of_id_none env options tab htab]
    · rcases h0 : (tabId == 0) with _ | _
      case true =>
        have hz : tabId = 0 := by simpa using h0
        rw [activate_eq_of_id_zero env options tab (hz ▸ htab)]
      case false =>
        rcases hfil : filterPasses options.filterTab tab with _ | _
        · rw [activate_eq_of_filtered env options tab tabId htab h0 hfil]
        · rcases hp : (activateContentScript env.send1
              { tab := tab, tabId := tabId } options.scriptId).2 with _ | _
          case true =>
            rw [activate_eq_probe_success env options tab tabId htab h0 hfil hp]
          case false =>
            rw [activate_eq_inject_ok env options tab tabId htab h0 hfil hp
              (by rw [hs', hc']; rfl)]
  · intro context scriptId hsend
    simp [activateContentScript, hsend]
  · intro context scriptId r hsend hr
    simp [activateContentScript, hsend, hr]

/-- Witness for C8: with no listener on the channel the trigger still
resolves and the probe reports "not yet injected". -/
theorem c8_channel_failures_swallowed_witness :
    (activate failEnv defaultOptions tab1).2 = .returned
    ∧ (activateContentScript failEnv.send1 ctx1 none).2 = false :=
  ⟨(c8_channel_failures_swallowed failEnv defaultOptions tab1
      (fun _ => rfl) (fun _ => rfl)).1,
   (c8_channel_failures_swallowed failEnv defaultOptions tab1
      (fun _ => rfl) (fun _ => rfl)).2.1 ctx1 none rfl⟩

/-- C9: if an injection dispatch made during a trigger rejects, the trigger
routine itself rejects; every configured dispatch was attempted exactly
once and no further channel message (no re-probe, no retry) is sent. -/
theorem c9_injection_failure_propagates (env : Env)
    (options : ContentScriptActivationOptions) (tab : Tab) (tabId : Nat)
    (hid : tab.id = some tabId) (hnz : tabId ≠ 0)
    (hfilter : filterPasses options.filterTab tab = true)
    (hprobe : (activateContentScript env.send1
      { tab := tab, tabId := tabId } options.scriptId).2 = false)
    (hfail : ((scriptDispatchList (resolveInject options.inject)).any
        env.scriptDispatchFails
      || (styleDispatchList (resolveInject options.inject)).any
        env.cssDispatchFails) = true) :
    (activate env options tab).2 = .rejected
    ∧ sentMessages (activate env options tab).1
        = [createRequestActivationMessage { tab := tab, tabId := tabId } none]
    ∧ injectionDispatches (activate env options tab).1
        = (scriptDispatchList (resolveInject options.inject)).map
            (Event.executeScript tabId)
          ++ (styleDispatchList (resolveInject options.inject)).map
            (Event.insertCSS tabId) := by
  have h0 : (tabId == 0) = false := by simpa using hnz
  rw [activate_eq_inject_rejected env options tab tabId hid h0 hfilter
    hprobe hfail]
  refine ⟨rfl, ?_, ?_⟩
  · rw [sentMessages_append, sentMessages_append, sentMessages_append,
      activateContentScript_fst, sentMessages_beforeIte,
      sentMessages_execMap, sentMessages_cssMap]
    simp [sentMessages]
  · rw [injectionDispatches_append, injectionDispatches_append,
      injectionDispatches_append, injectionDispatches_probe,
      injectionDispatches_beforeIte, injectionDispatches_execMap,
      injectionDispatches_cssMap]
    simp

/-- Witness for C9: against an environment whose script dispatches reject,
the default-options trigger on a cold target rejects after its one probe
and its one dispatch. -/
theorem c9_injection_failure_propagates_witness :
    (activate failingDispatchEnv defaultOptions tab1).2 = .rejected
    ∧ sentMessages (activate failingDispatchEnv defaultOptions tab1).1
        = [createRequestActivationMessage ctx1 none]
    ∧ injectionDispatches (activate failingDispatchEnv defaultOptions tab1).1
        = (scriptDispatchList (resolveInject defaultOptions.inject)).map
            (Event.executeScript 1)
          ++ (styleDispatchList (resolveInject defaultOptions.inject)).map
            (Event.insertCSS 1) :=
  c9_injection_failure_propagates failingDispatchEnv defaultOptions tab1 1 rfl
    (by decide) rfl (by decide) (by decide)

end ContentScriptActivation
